import Mathlib

/-! Verification of the face-identity pipeline of the smart-attendance-system
repository: the LBPH recognizer wrapper (src/core/face_recognizer.py), the
attendance write path (src/core/attendance_logger.py, src/database/operations.py,
src/ui/windows/take_attendance.py), the geometric post-filter and decision bands
of the simple attendance window (src/ui/windows/take_attendance_simple.py), and
the training script (train_model.py).

Modelling conventions: OpenCV confidence scores (Python floats) are modelled as
rationals, since every property at stake is an order comparison; the opaque LBPH
engine state is modelled as the function it induces from query faces to raw
(label, distance) outcomes, with an error alternative standing for an internal
exception of the cv2 predict call. -/

namespace SmartAttendance

variable {F : Type}

/-- Settings.RECOGNITION_THRESHOLD (config/settings.py line 41): an integer
setting, default 50, read by FaceRecognizer.predict. -/
def RECOGNITION_THRESHOLD : ℚ := 50

/-- Outcome of the underlying cv2 LBPH predict call on one query face: a raw
(label, confidence-distance) pair, or an internal error (a raised exception). -/
inductive EngineResult where
  | ok (label : ℕ) (distance : ℚ)
  | err
deriving DecidableEq

/-- State of FaceRecognizer (src/core/face_recognizer.py): the opaque trained
engine, observed through the predictions it yields on query faces; the
label-to-student-id dict, modelled as an association list; and the is_trained
flag. `F` abstracts the query-image type. -/
structure FaceRecognizer (F : Type) where
  engine : F → EngineResult
  label_map : List (ℕ × ℕ)
  is_trained : Bool

/-- FaceRecognizer.predict (face_recognizer.py lines 81 to 113), with the
configured threshold made an explicit argument (the source reads
Settings.RECOGNITION_THRESHOLD). Untrained models and a raised engine exception
both return (none, 0); a distance above the threshold suppresses the identity but
still reports the raw distance; otherwise the label is mapped through the
label_map dict (absent labels give none). -/
def FaceRecognizer.predictWith (r : FaceRecognizer F) (threshold : ℚ) (face : F) :
    Option ℕ × ℚ :=
  if r.is_trained then
    match r.engine face with
    | .ok label confidence =>
        if confidence > threshold then (none, confidence)
        else (r.label_map.lookup label, confidence)
    | .err => (none, 0)
  else (none, 0)

/-- FaceRecognizer.predict at the configured default threshold. -/
def FaceRecognizer.predict (r : FaceRecognizer F) (face : F) : Option ℕ × ℚ :=
  r.predictWith RECOGNITION_THRESHOLD face

/-- Document content of the label-map JSON artifact: json.dump stringifies the
integer dict keys, and the decimal string of a key is modelled as its digit
list. -/
abbrev LabelMapDoc := List (List ℕ × ℕ)

/-- Key stringification performed by json.dump inside FaceRecognizer.save_model
(face_recognizer.py line 156). -/
def encodeLabelMap (m : List (ℕ × ℕ)) : LabelMapDoc :=
  m.map fun p => (Nat.digits 10 p.1, p.2)

/-- Key re-parsing performed by FaceRecognizer.load_model (face_recognizer.py
line 191): JSON keys are strings, converted back with int(k). -/
def decodeLabelMap (d : LabelMapDoc) : List (ℕ × ℕ) :=
  d.map fun p => (Nat.ofDigits 10 p.1, p.2)

/-- On-disk model artifacts: the serialized engine blob at the model path, and
the co-located label-map JSON whose path is derived from the model path; none
means the file is absent. -/
structure ModelArtifacts (F : Type) where
  model_blob : Option (F → EngineResult)
  label_map_file : Option LabelMapDoc

/-- FaceRecognizer.save_model (face_recognizer.py lines 130 to 163): refuses on
an untrained model, writing nothing; otherwise serializes the engine and the
label map with stringified keys. -/
def FaceRecognizer.save_model (r : FaceRecognizer F) (disk : ModelArtifacts F) :
    Bool × ModelArtifacts F :=
  if r.is_trained then
    (true, ⟨some r.engine, some (encodeLabelMap r.label_map)⟩)
  else (false, disk)

/-- FaceRecognizer.load_model (face_recognizer.py lines 165 to 202): fails with
the state unchanged when the model file is absent; otherwise reads the blob,
converts the JSON string keys back to ints, or, when the label-map file is
missing, logs a warning and keeps the empty dict; sets is_trained on success. -/
def FaceRecognizer.load_model (r : FaceRecognizer F) (disk : ModelArtifacts F) :
    Bool × FaceRecognizer F :=
  match disk.model_blob with
  | none => (false, r)
  | some blob =>
      let lm := match disk.label_map_file with
        | some d => decodeLabelMap d
        | none => []
      (true, ⟨blob, lm, true⟩)

/-- FaceRecognizer.update_model (face_recognizer.py lines 204 to 230): refuses
on an untrained model, leaving it unchanged; on a trained model the cv2 update
call folds the new samples into the engine state, abstracted here as the updated
engine function. -/
def FaceRecognizer.update_model (r : FaceRecognizer F) (updated : F → EngineResult) :
    Bool × FaceRecognizer F :=
  if r.is_trained then (true, { r with engine := updated }) else (false, r)

/-- Claim C9: for a fixed trained model and a fixed query face whose engine
distance is d, the accept or reject decision of FaceRecognizer.predict is
monotone in the threshold: lowering the threshold strictly below d flips accept
to reject, and no decrease of the threshold ever flips reject to accept. -/
theorem c9_threshold_monotone (r : FaceRecognizer ℕ) (face label : ℕ) (d : ℚ)
    (htr : r.is_trained = true) (heng : r.engine face = .ok label d) (T T' : ℚ) :
    ((r.predictWith T face).1.isSome = true → T' < d →
      (r.predictWith T' face).1 = none) ∧
    ((r.predictWith T face).1 = none → T' ≤ T →
      (r.predictWith T' face).1 = none) := by
  simp only [FaceRecognizer.predictWith, htr, heng, if_true]
  constructor
  · intro hacc hlt
    have hgt : d > T' := hlt
    simp [hgt]
  · intro hnone hle
    by_cases hdT : d > T
    · have hgt : d > T' := lt_of_le_of_lt hle hdT
      simp [hgt]
    · simp only [hdT, if_false] at hnone
      by_cases hdT' : d > T'
      · simp [hdT']
      · simp only [hdT', if_false]
        exact hnone

/-- Witness for C9 at a concrete trained model with distance 30: accepted at
threshold 50, rejected once the threshold drops to 20, below the distance. -/
theorem c9_threshold_monotone_witness :
    ((⟨fun _ => .ok 0 30, [(0, 7)], true⟩ : FaceRecognizer ℕ).predictWith 20 0).1 =
      none :=
  (c9_threshold_monotone ⟨fun _ => .ok 0 30, [(0, 7)], true⟩ 0 0 30 rfl rfl 50 20).1
    (by norm_num [FaceRecognizer.predictWith, RECOGNITION_THRESHOLD])
    (by norm_num)

/-- Claim C10: predict is total at its public interface: an untrained model and
an internal engine error both return (none, 0) rather than raising; and 0 is
exactly the distance a perfect engine match would report, so a failure output is
indistinguishable from a perfect match by distance alone. -/
theorem c10_predict_total (r : FaceRecognizer ℕ) (face : ℕ) :
    (r.is_trained = false → r.predict face = (none, 0)) ∧
    (r.engine face = .err → r.predict face = (none, 0)) ∧
    (∀ label : ℕ, r.is_trained = true → r.engine face = .ok label 0 →
      (r.predict face).2 = 0) := by
  refine ⟨?_, ?_, ?_⟩
  · intro h
    simp [FaceRecognizer.predict, FaceRecognizer.predictWith, h]
  · intro h
    by_cases htr : r.is_trained
    · simp [FaceRecognizer.predict, FaceRecognizer.predictWith, htr, h]
    · simp [FaceRecognizer.predict, FaceRecognizer.predictWith, htr]
  · intro label htr heng
    have h50 : ¬ (0 : ℚ) > RECOGNITION_THRESHOLD := by
      norm_num [RECOGNITION_THRESHOLD]
    simp [FaceRecognizer.predict, FaceRecognizer.predictWith, htr, heng, h50]

/-- Witness for C10 at a concrete untrained recognizer. -/
theorem c10_predict_total_witness :
    (⟨fun _ => .err, [], false⟩ : FaceRecognizer ℕ).predict 0 = (none, 0) :=
  (c10_predict_total ⟨fun _ => .err, [], false⟩ 0).1 rfl

/-- Claim C7: on an untrained model, predict signals failure by returning no
identity with distance 0, save_model reports failure and writes no artifact, and
update_model reports failure and leaves the model state unchanged. -/
theorem c7_untrained_signals (r : FaceRecognizer ℕ) (disk : ModelArtifacts ℕ)
    (face : ℕ) (updated : ℕ → EngineResult) (h : r.is_trained = false) :
    r.predict face = (none, 0) ∧
    r.save_model disk = (false, disk) ∧
    r.update_model updated = (false, r) := by
  refine ⟨?_, ?_, ?_⟩ <;>
    simp [FaceRecognizer.predict, FaceRecognizer.predictWith,
      FaceRecognizer.save_model, FaceRecognizer.update_model, h]

/-- Witness for C7 at a concrete untrained recognizer and empty disk. -/
theorem c7_untrained_signals_witness :
    (⟨fun _ => .err, [], false⟩ : FaceRecognizer ℕ).predict 0 = (none, 0) ∧
    (⟨fun _ => .err, [], false⟩ : FaceRecognizer ℕ).save_model ⟨none, none⟩ =
      (false, ⟨none, none⟩) ∧
    (⟨fun _ => .err, [], false⟩ : FaceRecognizer ℕ).update_model (fun _ => .err) =
      (false, ⟨fun _ => .err, [], false⟩) :=
  c7_untrained_signals ⟨fun _ => .err, [], false⟩ ⟨none, none⟩ 0 (fun _ => .err) rfl

/-- One row of the attendance table: (student_id, session_id, confidence). The
store is the sequence of inserted rows. -/
abbrev AttendanceStore := List (ℕ × ℕ × ℚ)

/-- DatabaseOperations.check_attendance_marked (operations.py lines 386 to 393):
true exactly when a row for the (student_id, session_id) pair exists. -/
def check_attendance_marked (student session : ℕ) (db : AttendanceStore) : Bool :=
  db.any fun row => row.1 == student && row.2.1 == session

/-- DatabaseOperations.mark_attendance (operations.py lines 304 to 330): insert
one row and return the new positive rowid. -/
def mark_attendance (student session : ℕ) (confidence : ℚ) (db : AttendanceStore) :
    Option ℕ × AttendanceStore :=
  (some (db.length + 1), db ++ [(student, session, confidence)])

/-- AttendanceLogger.mark_present (attendance_logger.py lines 22 to 66): a
duplicate (student, session) pair returns false, not an error, and writes
nothing; otherwise the row is inserted and success follows the truthiness of the
returned rowid. -/
def mark_present (student session : ℕ) (confidence : ℚ) (db : AttendanceStore) :
    Bool × AttendanceStore :=
  if check_attendance_marked student session db then (false, db)
  else
    let inserted := mark_attendance student session confidence db
    if inserted.1.isSome then (true, inserted.2) else (false, inserted.2)

/-- Per-window session state of TakeAttendanceWindow (take_attendance.py): the
in-memory seen-set marked_students plus the external attendance store. -/
structure SessionState where
  marked_students : List ℕ
  db : AttendanceStore

/-- Accept path of TakeAttendanceWindow._process_attendance (take_attendance.py
lines 299 to 326) for one recognized student: the in-memory seen-set gates the
store call; otherwise AttendanceService.mark_attendance delegates to
AttendanceLogger.mark_present, and on success the student-record lookup (known)
guards entry of the identity into the seen-set. The Bool reports whether a store
write happened. -/
def process_recognized (known : ℕ → Bool) (session : ℕ) (st : SessionState)
    (student : ℕ) (confidence : ℚ) : Bool × SessionState :=
  if student ∈ st.marked_students then (false, st)
  else
    let res := mark_present student session confidence st.db
    if res.1 then
      if known student then (true, ⟨student :: st.marked_students, res.2⟩)
      else (true, ⟨st.marked_students, res.2⟩)
    else (false, ⟨st.marked_students, res.2⟩)

/-- After the first accepted write, the pair is present in the store. -/
theorem check_marked_after_insert (student session : ℕ) (c : ℚ) (db : AttendanceStore) :
    check_attendance_marked student session (db ++ [(student, session, c)]) = true := by
  simp [check_attendance_marked]

/-- Claim C1: invoking the accept path twice with the same identity in one
session yields exactly one attendance-store write: the first call appends the
single row, the second call writes nothing; when the student record resolves
(known), the identity is in the seen-set after the first call, which gates the
second call before any store interaction; and at store level mark_present on the
already-marked pair returns false and leaves the store unchanged. -/
theorem c1_idempotent_write (known : ℕ → Bool) (session student : ℕ) (c c' : ℚ)
    (st : SessionState)
    (hseen : student ∉ st.marked_students)
    (hdb : check_attendance_marked student session st.db = false) :
    (process_recognized known session st student c).1 = true ∧
    (process_recognized known session st student c).2.db =
      st.db ++ [(student, session, c)] ∧
    (process_recognized known session
        (process_recognized known session st student c).2 student c').1 = false ∧
    (process_recognized known session
        (process_recognized known session st student c).2 student c').2 =
      (process_recognized known session st student c).2 ∧
    (known student = true →
      student ∈ (process_recognized known session st student c).2.marked_students) ∧
    mark_present student session c'
        (process_recognized known session st student c).2.db =
      (false, (process_recognized known session st student c).2.db) := by
  have hfirst : process_recognized known session st student c =
      (true, ⟨(if known student then [student] else []) ++ st.marked_students,
        st.db ++ [(student, session, c)]⟩) := by
    unfold process_recognized
    rw [if_neg hseen]
    simp only [mark_present, hdb, Bool.false_eq_true, if_false, mark_attendance,
      Option.isSome_some, if_true]
    by_cases hk : known student
    · simp [hk]
    · simp [hk]
  have hmarked : check_attendance_marked student session
      (st.db ++ [(student, session, c)]) = true :=
    check_marked_after_insert student session c st.db
  have hmp : mark_present student session c' (st.db ++ [(student, session, c)]) =
      (false, st.db ++ [(student, session, c)]) := by
    simp [mark_present, hmarked]
  refine ⟨by rw [hfirst], by rw [hfirst], ?_, ?_, ?_, ?_⟩
  · rw [hfirst]
    unfold process_recognized
    by_cases hk : known student
    · simp [hk]
    · simp only [hk, Bool.false_eq_true, if_false, List.nil_append]
      rw [if_neg hseen]
      simp [hmp]
  · rw [hfirst]
    unfold process_recognized
    by_cases hk : known student
    · simp [hk]
    · simp only [hk, Bool.false_eq_true, if_false, List.nil_append]
      rw [if_neg hseen]
      simp [hmp]
  · intro hk
    rw [hfirst]
    simp [hk]
  · rw [hfirst]
    exact hmp

/-- Witness for C1: fresh session state, student 2 in session 1, confidence 40
twice. -/
theorem c1_idempotent_write_witness :
    (process_recognized (fun _ => true) 1 ⟨[], []⟩ 2 40).1 = true ∧
    (process_recognized (fun _ => true) 1 ⟨[], []⟩ 2 40).2.db =
      [] ++ [(2, 1, 40)] ∧
    (process_recognized (fun _ => true) 1
        (process_recognized (fun _ => true) 1 ⟨[], []⟩ 2 40).2 2 40).1 = false ∧
    (process_recognized (fun _ => true) 1
        (process_recognized (fun _ => true) 1 ⟨[], []⟩ 2 40).2 2 40).2 =
      (process_recognized (fun _ => true) 1 ⟨[], []⟩ 2 40).2 ∧
    ((fun (_ : ℕ) => true) 2 = true →
      2 ∈ (process_recognized (fun _ => true) 1 ⟨[], []⟩ 2 40).2.marked_students) ∧
    mark_present 2 1 40 (process_recognized (fun _ => true) 1 ⟨[], []⟩ 2 40).2.db =
      (false, (process_recognized (fun _ => true) 1 ⟨[], []⟩ 2 40).2.db) :=
  c1_idempotent_write (fun _ => true) 1 2 40 40 ⟨[], []⟩ (by simp) rfl

/-- Geometric validation applied to every detected region in
TakeAttendanceWindow._update_frame (take_attendance_simple.py lines 246 to 259):
the width-to-height aspect must lie in the closed band [0.7, 1.3], width and
height must be at least 80, and width and height must be at most 400; a region
failing any check is skipped with continue before extraction and recognition. -/
def region_passes_validation (w h : ℕ) : Bool :=
  let aspect : ℚ := (w : ℚ) / (h : ℚ)
  if aspect < 7/10 ∨ aspect > 13/10 then false
  else if w < 80 ∨ h < 80 then false
  else if w > 400 ∨ h > 400 then false
  else true

/-- Regions of one detector output, (x, y, w, h) each, that survive the
geometric validation and reach face extraction and recognition. The detector
output list itself is arbitrary: FaceDetector.detect_faces (face_detector.py
lines 48 to 96) forwards the cascade output unfiltered, so the validation is the
only gate. -/
def processed_regions (faces : List (ℕ × ℕ × ℕ × ℕ)) : List (ℕ × ℕ × ℕ × ℕ) :=
  faces.filter fun r => region_passes_validation r.2.2.1 r.2.2.2

/-- A region failing any of the three geometric checks fails the validation. -/
theorem region_fails_validation (w h : ℕ)
    (hbad : ((w : ℚ) / (h : ℚ) < 7/10 ∨ (w : ℚ) / (h : ℚ) > 13/10) ∨
      (w < 80 ∨ h < 80) ∨ (w > 400 ∨ h > 400)) :
    region_passes_validation w h = false := by
  rcases hbad with hb | hb | hb
  · simp [region_passes_validation, hb]
  · simp [region_passes_validation, hb]
  · simp [region_passes_validation, hb]

/-- Claim C3: the mandatory geometric post-filter discards, for every detector
output, every candidate region whose aspect ratio leaves [0.7, 1.3] or whose
width or height is under the 80 pixel floor or over the 400 pixel ceiling; in
particular a detected 300 by 100 region (aspect 3.0) never reaches recognition,
whatever the detector returned. -/
theorem c3_geometric_filter (faces : List (ℕ × ℕ × ℕ × ℕ)) (x y w h : ℕ)
    (hbad : ((w : ℚ) / (h : ℚ) < 7/10 ∨ (w : ℚ) / (h : ℚ) > 13/10) ∨
      (w < 80 ∨ h < 80) ∨ (w > 400 ∨ h > 400)) :
    (x, y, w, h) ∉ processed_regions faces ∧
    ∀ (detected : List (ℕ × ℕ × ℕ × ℕ)) (x' y' : ℕ),
      (x', y', 300, 100) ∉ processed_regions detected := by
  constructor
  · intro hmem
    have hpass := (List.mem_filter.mp hmem).2
    rw [region_fails_validation w h hbad] at hpass
    exact absurd hpass (by simp)
  · intro detected x' y' hmem
    have hpass := (List.mem_filter.mp hmem).2
    have hfail : region_passes_validation 300 100 = false := by
      apply region_fails_validation
      left
      right
      norm_num
    rw [hfail] at hpass
    exact absurd hpass (by simp)

/-- Witness for C3: the concrete 300 by 100 region inside a singleton detector
output. -/
theorem c3_geometric_filter_witness :
    (0, 0, 300, 100) ∉ processed_regions [(0, 0, 300, 100)] ∧
    ∀ (detected : List (ℕ × ℕ × ℕ × ℕ)) (x' y' : ℕ),
      (x', y', 300, 100) ∉ processed_regions detected :=
  c3_geometric_filter [(0, 0, 300, 100)] 0 0 300 100 (by norm_num)

/-- Outcome of the per-face branch of TakeAttendanceWindow._update_frame
(take_attendance_simple.py lines 270 to 305). -/
inductive FaceOutcome where
  | markedNow (reg : ℕ) (confidence : ℚ)
  | alreadyMarked (reg : ℕ) (confidence : ℚ)
  | uncertain (confidence : ℚ)
  | unknownFace (confidence : ℚ)
deriving DecidableEq

/-- Decision bands of _update_frame applied to the recognizer output: the
excellent band (confidence below 50) and the good band (confidence below 80)
both mark attendance when the identity resolved and is not yet in
recognized_students; confidence below 100 renders the face uncertain; anything
else renders unknown. An unresolved identity (none) displays as Unknown and
never marks. -/
def decide_face (recognized : List ℕ) (pred : Option ℕ × ℚ) : FaceOutcome :=
  match pred with
  | (some reg, confidence) =>
      if confidence < 50 then
        if reg ∈ recognized then .alreadyMarked reg confidence
        else .markedNow reg confidence
      else if confidence < 80 then
        if reg ∈ recognized then .alreadyMarked reg confidence
        else .markedNow reg confidence
      else if confidence < 100 then .uncertain confidence
      else .unknownFace confidence
  | (none, confidence) =>
      if confidence < 100 then .uncertain confidence
      else .unknownFace confidence

/-- One face of one frame in the simple attendance window:
FaceRecognizer.predict, then the decision bands. -/
def simple_frame_decision (r : FaceRecognizer F) (recognized : List ℕ) (face : F) :
    FaceOutcome :=
  decide_face recognized (r.predict face)

/-- Counterexample to claim C2: with the default threshold T = 50, a query
whose engine distance is 60 lies inside the band from T up to 1.6 T, yet the
pipeline does not accept it: predict suppresses the identity (60 exceeds the
threshold, so it returns none with the raw distance) and the window renders the
face uncertain, marking nothing, even with an empty seen-set. -/
theorem c2_band_counterexample :
    RECOGNITION_THRESHOLD ≤ 60 ∧
    (60 : ℚ) < (16/10) * RECOGNITION_THRESHOLD ∧
    (⟨fun _ => .ok 0 60, [(0, 7)], true⟩ : FaceRecognizer ℕ).predict 0 = (none, 60) ∧
    simple_frame_decision (⟨fun _ => .ok 0 60, [(0, 7)], true⟩ : FaceRecognizer ℕ) [] 0 =
      .uncertain 60 := by
  refine ⟨by norm_num [RECOGNITION_THRESHOLD], by norm_num [RECOGNITION_THRESHOLD], ?_, ?_⟩
  · have h : (60 : ℚ) > RECOGNITION_THRESHOLD := by norm_num [RECOGNITION_THRESHOLD]
    simp [FaceRecognizer.predict, FaceRecognizer.predictWith, h]
  · have h : (60 : ℚ) > RECOGNITION_THRESHOLD := by norm_num [RECOGNITION_THRESHOLD]
    simp only [simple_frame_decision, FaceRecognizer.predict, FaceRecognizer.predictWith,
      h, if_true, if_false, decide_face]
    norm_num

/-- Claim C2 as amended: within the secondary band only the boundary distance
d = T is accepted; there predict still returns the mapped identity and the good
band marks it when unseen. For every T strictly below d below 1.6 T, predict
returns no identity, the frame renders uncertain, and nothing is marked. -/
theorem c2_amended_band (r : FaceRecognizer ℕ) (recognized : List ℕ)
    (face label reg : ℕ) (d : ℚ)
    (htr : r.is_trained = true) (heng : r.engine face = .ok label d)
    (hmap : r.label_map.lookup label = some reg) (hseen : reg ∉ recognized) :
    (d = RECOGNITION_THRESHOLD →
      simple_frame_decision r recognized face = .markedNow reg d) ∧
    (RECOGNITION_THRESHOLD < d → d < (16/10) * RECOGNITION_THRESHOLD →
      simple_frame_decision r recognized face = .uncertain d) := by
  constructor
  · intro hd
    have hng : ¬ d > RECOGNITION_THRESHOLD := by
      rw [hd]
      exact lt_irrefl _
    have h50 : ¬ d < 50 := by
      rw [hd, RECOGNITION_THRESHOLD]
      exact lt_irrefl _
    have h80 : d < 80 := by
      rw [hd, RECOGNITION_THRESHOLD]
      norm_num
    simp only [simple_frame_decision, FaceRecognizer.predict, FaceRecognizer.predictWith,
      htr, heng, if_true, hng, if_false, hmap, decide_face]
    simp [h50, h80, hseen]
  · intro h1 h2
    have hgt : d > RECOGNITION_THRESHOLD := h1
    have hlt : d < 100 := by
      have : (16/10 : ℚ) * RECOGNITION_THRESHOLD = 80 := by
        norm_num [RECOGNITION_THRESHOLD]
      rw [this] at h2
      linarith
    simp only [simple_frame_decision, FaceRecognizer.predict, FaceRecognizer.predictWith,
      htr, heng, if_true, hgt, decide_face]
    simp [hlt]

/-- Witness for the amended C2: distance exactly 50 with label 0 mapped to
student 7 and an empty seen-set is marked through the good band. -/
theorem c2_amended_band_witness :
    simple_frame_decision (⟨fun _ => .ok 0 50, [(0, 7)], true⟩ : FaceRecognizer ℕ) [] 0 =
      .markedNow 7 50 :=
  (c2_amended_band ⟨fun _ => .ok 0 50, [(0, 7)], true⟩ [] 0 0 7 50 rfl rfl rfl
    (by simp)).1 (by rw [RECOGNITION_THRESHOLD])

/-- Round trip of the label-map JSON keys through save and load: stringified
label to parsed int, pair by pair. -/
theorem decode_encode_label_map (m : List (ℕ × ℕ)) :
    decodeLabelMap (encodeLabelMap m) = m := by
  induction m with
  | nil => rfl
  | cons p t ih =>
      simpa [encodeLabelMap, decodeLabelMap, Nat.ofDigits_digits] using ih

/-- Claim C6: saving a trained model and loading the artifacts into a fresh
recognizer succeeds in both directions, reproduces the label-to-identity mapping
exactly, and yields identical predict output on every query face. -/
theorem c6_save_load_roundtrip (r fresh : FaceRecognizer ℕ) (disk : ModelArtifacts ℕ)
    (htr : r.is_trained = true) :
    (r.save_model disk).1 = true ∧
    (fresh.load_model (r.save_model disk).2).1 = true ∧
    (fresh.load_model (r.save_model disk).2).2.label_map = r.label_map ∧
    ∀ face : ℕ, (fresh.load_model (r.save_model disk).2).2.predict face =
      r.predict face := by
  have hsave : r.save_model disk =
      (true, ⟨some r.engine, some (encodeLabelMap r.label_map)⟩) := by
    simp [FaceRecognizer.save_model, htr]
  have hload : fresh.load_model
      (⟨some r.engine, some (encodeLabelMap r.label_map)⟩ : ModelArtifacts ℕ) =
      (true, ⟨r.engine, r.label_map, true⟩) := by
    simp [FaceRecognizer.load_model, decode_encode_label_map]
  refine ⟨by rw [hsave], ?_, ?_, ?_⟩
  · rw [hsave, hload]
  · rw [hsave, hload]
  · intro face
    rw [hsave, hload]
    simp [FaceRecognizer.predict, FaceRecognizer.predictWith, htr]

/-- Witness for C6 at a concrete trained model with two labels. -/
theorem c6_save_load_roundtrip_witness :
    ((⟨fun _ => .ok 1 20, [(0, 7), (1, 9)], true⟩ : FaceRecognizer ℕ).save_model
        ⟨none, none⟩).1 = true ∧
    ((⟨fun _ => .err, [], false⟩ : FaceRecognizer ℕ).load_model
        ((⟨fun _ => .ok 1 20, [(0, 7), (1, 9)], true⟩ : FaceRecognizer ℕ).save_model
          ⟨none, none⟩).2).1 = true ∧
    ((⟨fun _ => .err, [], false⟩ : FaceRecognizer ℕ).load_model
        ((⟨fun _ => .ok 1 20, [(0, 7), (1, 9)], true⟩ : FaceRecognizer ℕ).save_model
          ⟨none, none⟩).2).2.label_map = [(0, 7), (1, 9)] ∧
    ∀ face : ℕ,
      ((⟨fun _ => .err, [], false⟩ : FaceRecognizer ℕ).load_model
          ((⟨fun _ => .ok 1 20, [(0, 7), (1, 9)], true⟩ : FaceRecognizer ℕ).save_model
            ⟨none, none⟩).2).2.predict face =
        (⟨fun _ => .ok 1 20, [(0, 7), (1, 9)], true⟩ : FaceRecognizer ℕ).predict face :=
  c6_save_load_roundtrip ⟨fun _ => .ok 1 20, [(0, 7), (1, 9)], true⟩
    ⟨fun _ => .err, [], false⟩ ⟨none, none⟩ rfl

/-- Counterexample to claim C8: loading a model whose label-map file is missing
succeeds, but the recognizer is left with the EMPTY dict, not the claimed
identity mapping of each label N to N: label 0 maps to nothing, and predict on
an accepted distance consequently returns no identity at all. -/
theorem c8_missing_map_counterexample :
    ((⟨fun _ => .err, [], false⟩ : FaceRecognizer ℕ).load_model
        ⟨some (fun _ => .ok 0 10), none⟩).1 = true ∧
    ((⟨fun _ => .err, [], false⟩ : FaceRecognizer ℕ).load_model
        ⟨some (fun _ => .ok 0 10), none⟩).2.label_map.lookup 0 ≠ some 0 ∧
    ((⟨fun _ => .err, [], false⟩ : FaceRecognizer ℕ).load_model
        ⟨some (fun _ => .ok 0 10), none⟩).2.predict 0 = (none, 10) := by
  have h10 : ¬ (10 : ℚ) > RECOGNITION_THRESHOLD := by
    norm_num [RECOGNITION_THRESHOLD]
  refine ⟨rfl, by simp [FaceRecognizer.load_model], ?_⟩
  simp [FaceRecognizer.load_model, FaceRecognizer.predict,
    FaceRecognizer.predictWith, h10]

/-- Claim C8 as amended: when the model blob exists but the label-map artifact
is missing, load succeeds (warning only) but degrades to the empty label map,
so the loaded model computes raw distances while predict returns no identity
for any query; it is usable for distance computation only, not for naming. -/
theorem c8_amended_empty_map (fresh : FaceRecognizer ℕ) (blob : ℕ → EngineResult) :
    (fresh.load_model ⟨some blob, none⟩).1 = true ∧
    (fresh.load_model ⟨some blob, none⟩).2.label_map = [] ∧
    (fresh.load_model ⟨some blob, none⟩).2.is_trained = true ∧
    ∀ (face label : ℕ) (d : ℚ), blob face = .ok label d →
      ¬ d > RECOGNITION_THRESHOLD →
      (fresh.load_model ⟨some blob, none⟩).2.predict face = (none, d) := by
  refine ⟨rfl, rfl, rfl, ?_⟩
  intro face label d heng hle
  simp [FaceRecognizer.load_model, FaceRecognizer.predict,
    FaceRecognizer.predictWith, heng, hle]

/-- Witness for the amended C8: concrete blob answering distance 10 on label 0. -/
theorem c8_amended_empty_map_witness :
    ((⟨fun _ => .err, [], false⟩ : FaceRecognizer ℕ).load_model
        ⟨some (fun _ => .ok 0 10), none⟩).2.predict 5 = (none, 10) :=
  (c8_amended_empty_map ⟨fun _ => .err, [], false⟩ (fun _ => .ok 0 10)).2.2.2
    5 0 10 rfl (by norm_num [RECOGNITION_THRESHOLD])

/-- Python dict assignment over an association list: replace the binding when
the key is present, else append the new pair. -/
def dict_assign (m : List (ℕ × String)) (k : ℕ) (v : String) : List (ℕ × String) :=
  if m.any (fun p => p.1 == k) then
    m.map fun p => if p.1 == k then (k, v) else p
  else m ++ [(k, v)]

/-- Accumulator of load_training_data (train_model.py lines 43 to 46): the
labels list parallel to the loaded faces, the label_mapping dict, and the label
counter. -/
structure LoadState where
  labels : List ℕ
  label_mapping : List (ℕ × String)
  label_counter : ℕ
deriving DecidableEq

/-- Body of the directory loop of load_training_data (train_model.py lines 49 to
121) for one student directory given as (name, image-file count): a directory
name that resolves to no registration number is skipped; a resolved name is
entered into label_mapping at the current counter BEFORE the minimum-sample
check; fewer than 7 images skips the image loading and the counter increment,
but the mapping entry just made stays. -/
def load_step (resolve : String → Option String) (st : LoadState)
    (dir : String × ℕ) : LoadState :=
  match resolve dir.1 with
  | none => st
  | some reg =>
      let mapping' := dict_assign st.label_mapping st.label_counter reg
      if dir.2 < 7 then ⟨st.labels, mapping', st.label_counter⟩
      else ⟨st.labels ++ List.replicate dir.2 st.label_counter, mapping',
        st.label_counter + 1⟩

/-- load_training_data (train_model.py lines 22 to 129) over the listing of the
faces directory. -/
def load_training_data (resolve : String → Option String)
    (dirs : List (String × ℕ)) : LoadState :=
  dirs.foldl (load_step resolve) ⟨[], [], 0⟩

/-- The distinct-label count len(set(labels)) tested by main (train_model.py
line 256). -/
def distinct_label_count (labels : List ℕ) : ℕ :=
  labels.eraseDups.length

/-- The label mapping that main persists to label_mapping.json via train_model
(train_model.py lines 250 to 262 and 160 to 163): none when the run aborts
before training (no faces loaded, or fewer than 2 distinct labels), otherwise
exactly the loader's label_mapping. -/
def main_persisted_mapping (resolve : String → Option String)
    (dirs : List (String × ℕ)) : Option (List (ℕ × String)) :=
  let st := load_training_data resolve dirs
  if st.labels.isEmpty then none
  else if distinct_label_count st.labels < 2 then none
  else some st.label_mapping

/-- Claim C4, evaluated at the failing input: directories A and B hold 10 images
each and directory C holds only 3, below the minimum of 7, with every name
resolving to itself. The run proceeds (labels 0 and 1 are distinct) and the
persisted label_mapping still contains the skipped identity C at label 2 —
load_training_data assigns the mapping entry before the minimum-sample check, in
contradiction with its own SKIPPING log message and with
TrainingService.load_training_data (training_service.py lines 44 to 68), which
checks the sample count before any bookkeeping. -/
theorem c4_skipped_identity_persisted :
    main_persisted_mapping (fun s => some s) [("A", 10), ("B", 10), ("C", 3)] =
      some [(0, "A"), (1, "B"), (2, "C")] ∧
    (2, "C") ∈ [(0, "A"), (1, "B"), (2, "C")] ∧
    ("C", 3) ∈ [("A", 10), ("B", 10), ("C", 3)] ∧ 3 < 7 := by
  refine ⟨?_, by decide, by decide, by decide⟩
  rfl

/-- Contents of the data/models directory touched by train_model.py; none means
the file is absent, a string stands for the file's bytes. -/
structure ModelsDir where
  model_file : Option String
  labels_file : Option String
  mapping_file : Option String
  metadata_file : Option String
  backups : List String
deriving DecidableEq

/-- Injectable external write failures, standing for Python exceptions raised by
the corresponding file writes. -/
structure WriteFaults where
  label_map_write_fails : Bool
  metadata_write_fails : Bool
deriving DecidableEq

/-- train_model (train_model.py lines 132 to 191) as a transition on the models
directory: recognizer.save_model writes the new engine blob directly to the live
model path and then the co-located label-map JSON (its Bool result is ignored by
the caller, so a label-map write failure does not stop the run); the
label_mapping and metadata JSONs follow; a metadata write failure propagates and
aborts the run with no backup, the live model file already replaced; on success
a timestamped backup copy is added. There is no temp-path-and-rename step
anywhere. -/
def train_model_fs (fs : ModelsDir) (newModel newLabels newMapping newMetadata : String)
    (faults : WriteFaults) : Bool × ModelsDir :=
  let fs1 := { fs with model_file := some newModel }
  let fs2 := if faults.label_map_write_fails then fs1
    else { fs1 with labels_file := some newLabels }
  let fs3 := { fs2 with mapping_file := some newMapping }
  if faults.metadata_write_fails then (false, fs3)
  else
    let fs4 := { fs3 with metadata_file := some newMetadata }
    (true, { fs4 with backups := fs4.backups ++ [newModel] })

/-- main (train_model.py lines 229 to 262) around train_model: the run aborts
with the directory untouched when no faces were loaded or when the loaded data
yields fewer than 2 distinct labels; only then does train_model start writing. -/
def main_training_run (fs : ModelsDir) (labels : List ℕ)
    (newModel newLabels newMapping newMetadata : String) (faults : WriteFaults) :
    Bool × ModelsDir :=
  if labels.isEmpty then (false, fs)
  else if distinct_label_count labels < 2 then (false, fs)
  else train_model_fs fs newModel newLabels newMapping newMetadata faults

/-- Counterexample to claim C5: starting from a directory holding a previous
model, a run over two distinct labels whose metadata write fails aborts with
failure, yet the live model file has already been replaced by the new blob — no
temp path protects it, so this failing run does not leave the previous artifact
untouched. -/
theorem c5_no_temp_path_counterexample :
    (main_training_run ⟨some "old-model", some "old-labels", some "old-map",
        some "old-meta", []⟩ [0, 0, 1] "new-model" "new-labels" "new-map" "new-meta"
        ⟨false, true⟩).1 = false ∧
    (main_training_run ⟨some "old-model", some "old-labels", some "old-map",
        some "old-meta", []⟩ [0, 0, 1] "new-model" "new-labels" "new-map" "new-meta"
        ⟨false, true⟩).2.model_file = some "new-model" ∧
    (some "new-model" : Option String) ≠ some "old-model" := by
  refine ⟨rfl, rfl, by decide⟩

/-- Claim C5 as amended: a run whose training data yields fewer than 2 distinct
labels fails before any write, leaving the whole models directory, and the model
file in particular, byte-for-byte unchanged; but the pipeline writes the new
model directly to the live path, so a run that fails later, at the metadata
step, ends with the live model file already replaced by the new blob. -/
theorem c5_abort_before_write (fs : ModelsDir) (labels : List ℕ)
    (newModel newLabels newMapping newMetadata : String) (faults : WriteFaults) :
    (distinct_label_count labels < 2 →
      main_training_run fs labels newModel newLabels newMapping newMetadata faults =
        (false, fs)) ∧
    (labels.isEmpty = false → ¬ distinct_label_count labels < 2 →
      faults.metadata_write_fails = true →
      (main_training_run fs labels newModel newLabels newMapping newMetadata faults).1 =
        false ∧
      (main_training_run fs labels newModel newLabels newMapping
          newMetadata faults).2.model_file = some newModel) := by
  constructor
  · intro hlt
    unfold main_training_run
    by_cases hemp : labels.isEmpty
    · simp [hemp]
    · simp [hemp, hlt]
  · intro hemp hge hmeta
    unfold main_training_run
    simp only [hemp, Bool.false_eq_true, if_false, hge]
    unfold train_model_fs
    by_cases hlab : faults.label_map_write_fails
    · simp [hlab, hmeta]
    · simp [hlab, hmeta]

/-- Witness for the amended C5: a single-label run aborts with the previous
model directory byte-for-byte unchanged. -/
theorem c5_abort_before_write_witness :
    main_training_run ⟨some "old-model", none, none, none, []⟩ [0]
        "new-model" "nl" "nm" "nd" ⟨false, false⟩ =
      (false, ⟨some "old-model", none, none, none, []⟩) :=
  (c5_abort_before_write ⟨some "old-model", none, none, none, []⟩ [0]
    "new-model" "nl" "nm" "nd" ⟨false, false⟩).1 (by decide)

end SmartAttendance
